import Mathlib

/-!
Verification development for the CompleteBotV trading system.

The definitions below are a shallow embedding of the TypeScript sources:
the risk-management service (RiskManager), the ensemble signal combiner
(AIModels.combineSignals), the venue gateway (BrokerAPI), the trading
engine (TradingEngine.executeTrade / closeTrade / checkTradeExitConditions),
the in-memory storage (MemStorage) and the client-side trade-parameter
validator (validateTradeParameters).

JavaScript numbers are modelled by the type JNum: a rational together with
NaN and the two signed infinities.  String-typed numeric columns (drizzle
decimal columns are strings in TypeScript) are modelled by the parseFloat
image of the string: a JNum, where nan stands for a malformed string.
Optional string fields are Option JNum, where none stands for an
absent/empty (falsy) string and some v for a truthy string parsing to v.
The negative zero of IEEE 754 and the exact rounding of binary doubles are
outside the model; no theorem below depends on them.
-/

namespace CompleteBotV

/-- JavaScript number: NaN, +Infinity, -Infinity or a (rational) value. -/
inductive JNum where
  | nan
  | posInf
  | negInf
  | num (q : ℚ)
  deriving DecidableEq, Repr

namespace JNum

/-- Negation of a JavaScript number. -/
def jneg : JNum → JNum
  | nan => nan
  | posInf => negInf
  | negInf => posInf
  | num q => num (-q)

/-- Addition of JavaScript numbers. -/
def jadd : JNum → JNum → JNum
  | nan, _ => nan
  | _, nan => nan
  | posInf, negInf => nan
  | negInf, posInf => nan
  | posInf, _ => posInf
  | negInf, _ => negInf
  | num _, posInf => posInf
  | num _, negInf => negInf
  | num a, num b => num (a + b)

/-- Subtraction of JavaScript numbers. -/
def jsub (a b : JNum) : JNum := jadd a (jneg b)

/-- Multiplication of JavaScript numbers. -/
def jmul : JNum → JNum → JNum
  | nan, _ => nan
  | _, nan => nan
  | posInf, posInf => posInf
  | posInf, negInf => negInf
  | negInf, posInf => negInf
  | negInf, negInf => posInf
  | posInf, num q => if 0 < q then posInf else if q < 0 then negInf else nan
  | negInf, num q => if 0 < q then negInf else if q < 0 then posInf else nan
  | num q, posInf => if 0 < q then posInf else if q < 0 then negInf else nan
  | num q, negInf => if 0 < q then negInf else if q < 0 then posInf else nan
  | num a, num b => num (a * b)

/-- Division of JavaScript numbers.  Division of a nonzero value by zero
yields a signed infinity and 0/0 yields NaN, as in JavaScript (the sign of
a zero divisor is always taken as positive: negative zero is not
modelled). -/
def jdiv : JNum → JNum → JNum
  | nan, _ => nan
  | _, nan => nan
  | posInf, posInf => nan
  | posInf, negInf => nan
  | negInf, posInf => nan
  | negInf, negInf => nan
  | posInf, num q => if q < 0 then negInf else posInf
  | negInf, num q => if q < 0 then posInf else negInf
  | num _, posInf => num 0
  | num _, negInf => num 0
  | num a, num b =>
      if b = 0 then (if a = 0 then nan else if 0 < a then posInf else negInf)
      else num (a / b)

/-- Strict less-than on JavaScript numbers; false whenever NaN is involved. -/
def jlt : JNum → JNum → Bool
  | num a, num b => decide (a < b)
  | num _, posInf => true
  | negInf, num _ => true
  | negInf, posInf => true
  | _, _ => false

/-- Less-or-equal on JavaScript numbers; false whenever NaN is involved. -/
def jle : JNum → JNum → Bool
  | nan, _ => false
  | _, nan => false
  | negInf, _ => true
  | _, posInf => true
  | posInf, _ => false
  | num a, num b => decide (a ≤ b)
  | num _, negInf => false

/-- Strict greater-than on JavaScript numbers. -/
def jgt (a b : JNum) : Bool := jlt b a

/-- Greater-or-equal on JavaScript numbers. -/
def jge (a b : JNum) : Bool := jle b a

/-- Strict equality of JavaScript numbers; NaN is equal to nothing. -/
def jeq : JNum → JNum → Bool
  | num a, num b => decide (a = b)
  | posInf, posInf => true
  | negInf, negInf => true
  | _, _ => false

/-- Math.abs on JavaScript numbers. -/
def jabs : JNum → JNum
  | nan => nan
  | posInf => posInf
  | negInf => posInf
  | num q => num |q|

/-- Math.max on two JavaScript numbers; NaN absorbs. -/
def jmax : JNum → JNum → JNum
  | nan, _ => nan
  | _, nan => nan
  | posInf, _ => posInf
  | _, posInf => posInf
  | negInf, b => b
  | a, negInf => a
  | num a, num b => num (max a b)

/-- Number.prototype.toFixed with f digits, read back as a number: rounding
to the nearest multiple of 10^(-f), ties towards the larger value, as the
ECMAScript toFixed algorithm specifies.  NaN and the infinities pass
through. -/
def jToFixed (x : JNum) (f : ℕ) : JNum :=
  match x with
  | num q => num ((⌊q * 10 ^ f + 1 / 2⌋ : ℚ) / 10 ^ f)
  | other => other

/-- Truthiness of a JavaScript number: 0 and NaN are falsy. -/
def jTruthy : JNum → Bool
  | nan => false
  | num q => decide (q ≠ 0)
  | _ => true

end JNum

open JNum

/-- Prefix test on character lists: listStartsWith s p decides whether p
is an initial segment of s. -/
def listStartsWith : List Char → List Char → Bool
  | _, [] => true
  | [], _ :: _ => false
  | a :: as, b :: bs => a = b && listStartsWith as bs

/-- Infix test on character lists. -/
def listHasInfix : List Char → List Char → Bool
  | [], sub => sub.isEmpty
  | c :: rest, sub => listStartsWith (c :: rest) sub || listHasInfix rest sub

/-- Substring test, modelling String.prototype.includes. -/
def strIncludes (s sub : String) : Bool := listHasInfix s.toList sub.toList

/-- Blankness test: a string is blank when every character is whitespace.
This is the condition under which the source guard, falsiness of the
string or emptiness of its trim, holds. -/
def strBlank (s : String) : Bool := s.toList.all Char.isWhitespace

/-- Trade direction, the type column of the trades table: BUY or SELL. -/
inductive TradeType where
  | BUY
  | SELL
  deriving DecidableEq, Repr

/-- Trade lifecycle state, the status column of the trades table. -/
inductive TradeStatus where
  | PENDING
  | OPEN
  | CLOSED
  deriving DecidableEq, Repr

/-- Portfolio row (shared/schema.ts).  Only the columns the modelled code
reads are kept; the decimal (string) columns are modelled by their
parseFloat image. -/
structure Portfolio where
  userId : ℤ
  totalValue : JNum
  dailyPnL : JNum
  totalPnL : JNum
  deriving DecidableEq, Repr

/-- Trade row (shared/schema.ts).  Decimal columns are modelled by their
parseFloat image; nullable/optional decimal columns by Option JNum with
none for an absent or empty (falsy) string.  Timestamp and presentation
columns (aiConfidence, aiModel, openedAt, closedAt) are not read by any
modelled computation and are omitted. -/
structure Trade where
  id : ℕ
  userId : ℤ
  symbol : String
  type : TradeType
  status : TradeStatus
  entryPrice : JNum
  currentPrice : Option JNum
  quantity : JNum
  stopLoss : Option JNum
  takeProfit : Option JNum
  pnl : Option JNum
  deriving DecidableEq, Repr

/-- Insert payload for a trade (InsertTrade of shared/schema.ts), as read
by RiskManager.validateTrade and TradingEngine.executeTrade. -/
structure InsertTrade where
  userId : ℤ
  symbol : String
  type : TradeType
  status : TradeStatus
  entryPrice : JNum
  quantity : JNum
  stopLoss : Option JNum
  takeProfit : Option JNum
  deriving DecidableEq, Repr

namespace RiskManager

/-- Risk limits of the RiskManager service (all percentages). -/
structure RiskSettings where
  maxRiskPerTrade : ℚ
  maxTotalRisk : ℚ
  maxDrawdown : ℚ
  maxPositionSize : ℚ
  maxDailyLoss : ℚ
  deriving DecidableEq, Repr

/-- Default risk settings of the RiskManager instance. -/
def defaultRiskSettings : RiskSettings :=
  { maxRiskPerTrade := 2
    maxTotalRisk := 10
    maxDrawdown := 15
    maxPositionSize := 5
    maxDailyLoss := 5 }

/-- Identity of the reason string a RiskCheck carries.  The source builds
template strings; each constructor stands for one template. -/
inductive Reason where
  | portfolioNotFound
  | positionSizeExceeded
  | positionSizeOK
  | totalRiskExceeded
  | totalRiskOK
  | dailyLossExceeded
  | dailyLossOK
  | drawdownExceeded
  | drawdownOK
  | tooManySymbol
  | tooManyCategory
  | correlationOK
  | tradeApproved
  | riskValidationError
  deriving DecidableEq, Repr

/-- Result record of a risk check. -/
structure RiskCheck where
  allowed : Bool
  reason : Reason
  riskScore : JNum
  deriving DecidableEq, Repr

/-- Position-size check: the trade value as a percentage of the portfolio
total must not exceed maxPositionSize. -/
def checkPositionSize (rs : RiskSettings) (tradeData : InsertTrade)
    (portfolio : Portfolio) : RiskCheck :=
  let totalValue := portfolio.totalValue
  let tradeValue := jmul tradeData.entryPrice tradeData.quantity
  let positionSizePercent := jmul (jdiv tradeValue totalValue) (num 100)
  if jgt positionSizePercent (num rs.maxPositionSize) then
    { allowed := false
      reason := Reason.positionSizeExceeded
      riskScore := jmul positionSizePercent (num 2) }
  else
    { allowed := true
      reason := Reason.positionSizeOK
      riskScore := positionSizePercent }

/-- Per-trade risk percentage: distance from entry to stop relative to
entry, or the default max risk per trade when no stop is set (the source
parses trade.stopLoss with fallback to the string 0). -/
def calculateTradeRisk (rs : RiskSettings) (trade : Trade) : JNum :=
  let entryPrice := trade.entryPrice
  let stopLoss := trade.stopLoss.getD (num 0)
  if jeq stopLoss (num 0) then num rs.maxRiskPerTrade
  else
    let riskPercent :=
      match trade.type with
      | TradeType.BUY => jmul (jdiv (jsub entryPrice stopLoss) entryPrice) (num 100)
      | TradeType.SELL => jmul (jdiv (jsub stopLoss entryPrice) entryPrice) (num 100)
    jabs riskPercent

/-- Aggregate risk-exposure check over the active trades. -/
def checkTotalRiskExposure (rs : RiskSettings) (activeTrades : List Trade)
    (portfolio : Portfolio) : RiskCheck :=
  let totalValue := portfolio.totalValue
  let totalRiskExposure := activeTrades.foldl
    (fun acc trade =>
      let tradeValue := jmul trade.entryPrice trade.quantity
      let riskPercent := calculateTradeRisk rs trade
      jadd acc (jdiv (jmul tradeValue riskPercent) (num 100)))
    (num 0)
  let riskExposurePercent := jmul (jdiv totalRiskExposure totalValue) (num 100)
  if jgt riskExposurePercent (num rs.maxTotalRisk) then
    { allowed := false
      reason := Reason.totalRiskExceeded
      riskScore := jmul riskExposurePercent (num 2) }
  else
    { allowed := true
      reason := Reason.totalRiskOK
      riskScore := riskExposurePercent }

/-- Daily-loss check: only a negative daily P&L can reject. -/
def checkDailyLoss (rs : RiskSettings) (portfolio : Portfolio) : RiskCheck :=
  let totalValue := portfolio.totalValue
  let dailyPnL := portfolio.dailyPnL
  if jlt dailyPnL (num 0) then
    let dailyLossPercent := jmul (jabs (jdiv dailyPnL totalValue)) (num 100)
    if jgt dailyLossPercent (num rs.maxDailyLoss) then
      { allowed := false
        reason := Reason.dailyLossExceeded
        riskScore := jmul dailyLossPercent (num 3) }
    else
      { allowed := true
        reason := Reason.dailyLossOK
        riskScore := jmul (jabs (jdiv dailyPnL totalValue)) (num 100) }
  else
    { allowed := true
      reason := Reason.dailyLossOK
      riskScore := jmul (jabs (jdiv dailyPnL totalValue)) (num 100) }

/-- Drawdown check against the reconstructed approximate peak value. -/
def checkDrawdown (rs : RiskSettings) (portfolio : Portfolio) : RiskCheck :=
  let totalValue := portfolio.totalValue
  let totalPnL := portfolio.totalPnL
  let peakValue := jadd (jsub totalValue totalPnL) (jmax (num 0) totalPnL)
  let drawdownPercent := jmul (jdiv (jsub peakValue totalValue) peakValue) (num 100)
  if jgt drawdownPercent (num rs.maxDrawdown) then
    { allowed := false
      reason := Reason.drawdownExceeded
      riskScore := jmul drawdownPercent (num 2) }
  else
    { allowed := true
      reason := Reason.drawdownOK
      riskScore := drawdownPercent }

/-- Asset category inferred from the symbol naming convention. -/
def getAssetCategory (symbol : String) : String :=
  if strIncludes symbol "BTC" || strIncludes symbol "ETH" || strIncludes symbol "USDT" then
    "CRYPTO"
  else if strIncludes symbol "/" then "FOREX"
  else "STOCKS"

/-- Concentration check: at most 2 open positions on the same symbol and
at most 4 in the same asset category. -/
def checkCorrelation (tradeData : InsertTrade) (activeTrades : List Trade) : RiskCheck :=
  let sameSymbolTrades := activeTrades.filter (fun t => t.symbol = tradeData.symbol)
  let sameCategoryTrades := activeTrades.filter
    (fun t => getAssetCategory t.symbol = getAssetCategory tradeData.symbol)
  if sameSymbolTrades.length ≥ 3 then
    { allowed := false
      reason := Reason.tooManySymbol
      riskScore := num (sameSymbolTrades.length * 20) }
  else if sameCategoryTrades.length ≥ 5 then
    { allowed := false
      reason := Reason.tooManyCategory
      riskScore := num (sameCategoryTrades.length * 15) }
  else
    { allowed := true
      reason := Reason.correlationOK
      riskScore := num (sameCategoryTrades.length * 5) }

/-- Aggregate weighted risk score computed when every check passes. -/
def calculateRiskScore (rs : RiskSettings) (tradeData : InsertTrade)
    (portfolio : Portfolio) (activeTrades : List Trade) : JNum :=
  let positionRisk := (checkPositionSize rs tradeData portfolio).riskScore
  let exposureRisk := (checkTotalRiskExposure rs activeTrades portfolio).riskScore
  let dailyRisk := (checkDailyLoss rs portfolio).riskScore
  let correlationRisk := (checkCorrelation tradeData activeTrades).riskScore
  jadd (jadd (jadd (jmul positionRisk (num (3 / 10))) (jmul exposureRisk (num (3 / 10))))
      (jmul dailyRisk (num (2 / 10))))
    (jmul correlationRisk (num (2 / 10)))

/-- Validation entry point of the RiskManager: runs the five checks and
returns the first failed one, or an approval carrying the aggregate risk
score.  The portfolio and active trades that the source fetches from
storage are passed as arguments; a missing portfolio is rejected
outright. -/
def validateTrade (rs : RiskSettings) (tradeData : InsertTrade)
    (portfolio : Option Portfolio) (activeTrades : List Trade) : RiskCheck :=
  match portfolio with
  | none =>
      { allowed := false, reason := Reason.portfolioNotFound, riskScore := num 100 }
  | some p =>
      let checks := [checkPositionSize rs tradeData p,
                     checkTotalRiskExposure rs activeTrades p,
                     checkDailyLoss rs p,
                     checkDrawdown rs p,
                     checkCorrelation tradeData activeTrades]
      match checks.filter (fun check => !check.allowed) with
      | [] =>
          { allowed := true
            reason := Reason.tradeApproved
            riskScore := calculateRiskScore rs tradeData p activeTrades }
      | failed :: _ => failed

end RiskManager

namespace TradingUtils

/-- Identity of a validation error message pushed by
validateTradeParameters; each constructor stands for one of the literal
strings of the source. -/
inductive VErr where
  | symbolRequired
  | quantityNotPositive
  | entryPriceNotPositive
  | stopLossNotPositive
  | takeProfitNotPositive
  | stopNotBelowEntryBuy
  | targetNotAboveEntryBuy
  | stopNotAboveEntrySell
  | targetNotBelowEntrySell
  deriving DecidableEq, Repr

/-- Parameter record passed to validateTradeParameters.  The numeric
fields are TypeScript numbers (JNum); the optional fields are undefined
(none) or a number. -/
structure TradeParams where
  symbol : String
  quantity : JNum
  entryPrice : JNum
  stopLoss : Option JNum
  takeProfit : Option JNum
  tradeType : TradeType
  deriving DecidableEq, Repr

/-- Result of validateTradeParameters. -/
structure TradeValidation where
  isValid : Bool
  errors : List VErr
  deriving DecidableEq, Repr

/-- Truthiness of an optional JavaScript number: undefined, 0 and NaN are
falsy. -/
def optTruthy : Option JNum → Bool
  | none => false
  | some v => jTruthy v

/-- Stop/target side errors: pushed only when both stopLoss and takeProfit
are truthy, mirroring the guard of the source. -/
def sideErrors (params : TradeParams) : List VErr :=
  match params.stopLoss, params.takeProfit with
  | some sl, some tp =>
      if jTruthy sl && jTruthy tp then
        match params.tradeType with
        | TradeType.BUY =>
            (if jge sl params.entryPrice then [VErr.stopNotBelowEntryBuy] else []) ++
            (if jle tp params.entryPrice then [VErr.targetNotAboveEntryBuy] else [])
        | TradeType.SELL =>
            (if jle sl params.entryPrice then [VErr.stopNotAboveEntrySell] else []) ++
            (if jge tp params.entryPrice then [VErr.targetNotBelowEntrySell] else [])
      else []
  | _, _ => []

/-- Client-side creation-time validation of trade parameters
(validateTradeParameters of the trading utilities).  The error list is
accumulated in the push order of the source; isValid holds exactly when
no error was pushed. -/
def validateTradeParameters (params : TradeParams) : TradeValidation :=
  let errors : List VErr :=
    (if strBlank params.symbol then [VErr.symbolRequired] else []) ++
    (if jle params.quantity (num 0) then [VErr.quantityNotPositive] else []) ++
    (if jle params.entryPrice (num 0) then [VErr.entryPriceNotPositive] else []) ++
    (match params.stopLoss with
     | some sl => if jTruthy sl && jle sl (num 0) then [VErr.stopLossNotPositive] else []
     | none => []) ++
    (match params.takeProfit with
     | some tp => if jTruthy tp && jle tp (num 0) then [VErr.takeProfitNotPositive] else []
     | none => []) ++
    sideErrors params
  { isValid := errors.isEmpty, errors := errors }

end TradingUtils

namespace AIModels

/-- Signal direction of an AI signal: BUY, SELL or HOLD. -/
inductive SigDir where
  | BUY
  | SELL
  | HOLD
  deriving DecidableEq, Repr

/-- Sub-strategy output fed to combineSignals (a partial InsertAiSignal).
The confidence column is a string parsed with fallback to the string 0, so
it is an Option JNum; the model column is the model name string.  The
reasoning and expiry fields are carried through the combiner unchanged and
are omitted here. -/
structure PartialSignal where
  symbol : String
  signal : SigDir
  confidence : Option JNum
  model : String
  entryPrice : JNum
  stopLoss : Option JNum
  takeProfit : Option JNum
  deriving DecidableEq, Repr

/-- Combined ensemble signal produced by combineSignals. -/
structure EnsembleSignal where
  symbol : String
  signal : SigDir
  confidence : JNum
  model : String
  entryPrice : JNum
  stopLoss : Option JNum
  takeProfit : Option JNum
  deriving DecidableEq, Repr

/-- Ensemble weight for a model name, with the 0.33 fallback of the source
for a name outside the weight table. -/
def weight (model : String) : ℚ :=
  if model = "LSTM" then 4 / 10
  else if model = "XGBoost" then 35 / 100
  else if model = "CNN" then 25 / 100
  else 33 / 100

/-- Accumulator of the forEach loop of combineSignals. -/
structure CombineAcc where
  buyScore : JNum
  sellScore : JNum
  totalConfidence : JNum
  deriving DecidableEq, Repr

/-- One iteration of the forEach loop of combineSignals. -/
def combineStep (acc : CombineAcc) (signal : PartialSignal) : CombineAcc :=
  let confidence := signal.confidence.getD (num 0)
  let w := weight signal.model
  let acc₁ :=
    match signal.signal with
    | SigDir.BUY => { acc with buyScore := jadd acc.buyScore (jmul confidence (num w)) }
    | SigDir.SELL => { acc with sellScore := jadd acc.sellScore (jmul confidence (num w)) }
    | SigDir.HOLD => acc
  { acc₁ with totalConfidence := jadd acc₁.totalConfidence (jmul confidence (num w)) }

/-- Weighted ensemble combination of the sub-strategy outputs.  Returns
none on an empty input list, where the source would fail dereferencing
signals[0]. -/
def combineSignals (signals : List PartialSignal) : Option EnsembleSignal :=
  match signals with
  | [] => none
  | baseSignal :: _ =>
      let acc := signals.foldl combineStep
        { buyScore := num 0, sellScore := num 0, totalConfidence := num 0 }
      let pick : SigDir × JNum :=
        if jgt acc.buyScore acc.sellScore && jgt acc.buyScore (num 60) then
          (SigDir.BUY, acc.buyScore)
        else if jgt acc.sellScore acc.buyScore && jgt acc.sellScore (num 60) then
          (SigDir.SELL, acc.sellScore)
        else (SigDir.HOLD, jmax acc.buyScore acc.sellScore)
      some { symbol := baseSignal.symbol
             signal := pick.1
             confidence := jToFixed pick.2 1
             model := if jgt pick.2 (num 70) then "ENSEMBLE" else baseSignal.model
             entryPrice := baseSignal.entryPrice
             stopLoss := baseSignal.stopLoss
             takeProfit := baseSignal.takeProfit }

end AIModels

namespace BrokerAPI

/-- Health record of one venue connection.  The wall-clock lastPing field
is not read by any modelled computation and is omitted. -/
structure BrokerConnection where
  name : String
  connected : Bool
  latency : ℤ
  deriving DecidableEq, Repr

/-- Connection map of the BrokerAPI instance, one record per venue. -/
structure Connections where
  capitalCom : BrokerConnection
  binance : BrokerConnection
  metatrader : BrokerConnection
  deriving DecidableEq, Repr

/-- Outbound trade request passed to BrokerAPI.executeTrade. -/
structure TradeRequest where
  symbol : String
  side : TradeType
  quantity : JNum
  price : JNum
  stopLoss : Option JNum
  takeProfit : Option JNum
  deriving DecidableEq, Repr

/-- Execution result of a venue.  The random orderId and wall-clock
timestamp of the source are omitted. -/
structure ExecutionResult where
  executedPrice : JNum
  executedQuantity : JNum
  deriving DecidableEq, Repr

/-- Venue failure: the selected venue is not connected. -/
inductive BrokerError where
  | notConnected (name : String)
  deriving DecidableEq, Repr

/-- Venue selection from the symbol naming pattern: crypto-styled symbols
route to Binance, slash-delimited pairs to Capital.com, bare tickers to
MetaTrader. -/
def selectBroker (conns : Connections) (symbol : String) : BrokerConnection :=
  if strIncludes symbol "BTC" || strIncludes symbol "ETH" || strIncludes symbol "USDT" then
    conns.binance
  else if strIncludes symbol "/" then conns.capitalCom
  else conns.metatrader

/-- Trade execution at the selected venue: fails when the venue is
disconnected, otherwise fills the requested quantity at the requested
price plus the slippage drawn by the source from Math.random, passed here
as the explicit argument slip. -/
def executeTrade (conns : Connections) (request : TradeRequest) (slip : ℚ) :
    Except BrokerError ExecutionResult :=
  let broker := selectBroker conns request.symbol
  if !broker.connected then Except.error (BrokerError.notConnected broker.name)
  else Except.ok { executedPrice := jadd request.price (num slip)
                   executedQuantity := request.quantity }

/-- Trade closure at the venue: the source only logs and resolves, with no
connectivity check and no state change, so the model returns unit
unconditionally. -/
def closeTrade (conns : Connections) (tradeId : ℕ) (closePrice : JNum) :
    Except BrokerError Unit :=
  Except.ok ()

end BrokerAPI

namespace Storage

/-- State of the in-memory storage (MemStorage): the trades and portfolios
maps and the market-data map keyed by symbol (only the price column is
read by the modelled code), together with the id counter for new trades.
Map iteration order is insertion order, modelled by lists. -/
structure EngineState where
  trades : List Trade
  portfolios : List Portfolio
  marketPrices : List (String × JNum)
  nextTradeId : ℕ
  deriving DecidableEq, Repr

/-- MemStorage.getTrades: every trade of the user. -/
def getTrades (st : EngineState) (userId : ℤ) : List Trade :=
  st.trades.filter (fun t => t.userId = userId)

/-- MemStorage.getActiveTrades: the OPEN trades of the user. -/
def getActiveTrades (st : EngineState) (userId : ℤ) : List Trade :=
  st.trades.filter (fun t => t.userId = userId && t.status = TradeStatus.OPEN)

/-- MemStorage.getMarketData, reduced to the price column. -/
def getMarketData (st : EngineState) (symbol : String) : Option JNum :=
  (st.marketPrices.find? (fun p => p.1 = symbol)).map (fun p => p.2)

/-- MemStorage.getPortfolio: the portfolio of the user. -/
def getPortfolio (st : EngineState) (userId : ℤ) : Option Portfolio :=
  st.portfolios.find? (fun p => p.userId = userId)

/-- MemStorage.updatePortfolio: merge the updated numeric columns into the
stored portfolio of the user, if present. -/
def updatePortfolio (st : EngineState) (userId : ℤ)
    (totalValue dailyPnL totalPnL : JNum) : EngineState :=
  match getPortfolio st userId with
  | none => st
  | some p =>
      let updated : Portfolio :=
        { p with totalValue := totalValue, dailyPnL := dailyPnL, totalPnL := totalPnL }
      { st with
          portfolios := st.portfolios.map
            (fun q => if q.userId = userId then updated else q) }

/-- MemStorage.createTrade: allocate the next id and insert the trade. -/
def createTrade (st : EngineState) (tradeData : InsertTrade) : Trade × EngineState :=
  let trade : Trade :=
    { id := st.nextTradeId
      userId := tradeData.userId
      symbol := tradeData.symbol
      type := tradeData.type
      status := tradeData.status
      entryPrice := tradeData.entryPrice
      currentPrice := none
      quantity := tradeData.quantity
      stopLoss := tradeData.stopLoss
      takeProfit := tradeData.takeProfit
      pnl := some (num 0) }
  (trade, { st with trades := st.trades ++ [trade], nextTradeId := st.nextTradeId + 1 })

/-- MemStorage.closeTrade: look the trade up by id only (no status guard),
mark it CLOSED and record close price and realized P&L. -/
def closeTrade (st : EngineState) (id : ℕ) (closePrice pnl : JNum) :
    Option Trade × EngineState :=
  match st.trades.find? (fun t => t.id = id) with
  | none => (none, st)
  | some t =>
      let updated : Trade :=
        { t with status := TradeStatus.CLOSED, currentPrice := some closePrice, pnl := some pnl }
      (some updated,
       { st with trades := st.trades.map (fun u => if u.id = id then updated else u) })

end Storage

namespace TradingEngine

open Storage

/-- Failure modes of TradingEngine.closeTrade, one per thrown Error. -/
inductive CloseError where
  | notFound
  | marketDataUnavailable
  | closeFailed
  deriving DecidableEq, Repr

/-- Failure modes of TradingEngine.executeTrade. -/
inductive ExecError where
  | riskRejected (reason : RiskManager.Reason)
  | venue (e : BrokerAPI.BrokerError)
  deriving DecidableEq, Repr

/-- Realized P&L of a close: close minus entry times quantity for a BUY,
sign-inverted for a SELL. -/
def realizedPnL (type : TradeType) (closePrice entryPrice quantity : JNum) : JNum :=
  match type with
  | TradeType.BUY => jmul (jsub closePrice entryPrice) quantity
  | TradeType.SELL => jmul (jsub entryPrice closePrice) quantity

/-- TradingEngine.updatePortfolioAfterTrade: add the realized P&L of the
trade to the totalValue, dailyPnL and totalPnL of the portfolio of the
user, as an additive delta; a missing portfolio leaves the state
unchanged. -/
def updatePortfolioAfterTrade (userId : ℤ) (trade : Trade) (st : EngineState) :
    EngineState :=
  match getPortfolio st userId with
  | none => st
  | some portfolio =>
      let tradePnL := trade.pnl.getD (num 0)
      updatePortfolio st userId
        (jadd portfolio.totalValue tradePnL)
        (jadd portfolio.dailyPnL tradePnL)
        (jadd portfolio.totalPnL tradePnL)

/-- TradingEngine.closeTrade, run to completion with no interleaving: find
the OPEN trade of the user, read the current market price, compute the
realized P&L, persist the CLOSED state and apply the portfolio delta.  The
venue closure and the audit record have no effect on the modelled
state. -/
def closeTrade (tradeId : ℕ) (userId : ℤ) (st : EngineState) :
    Except CloseError (Trade × EngineState) :=
  match (getTrades st userId).find?
      (fun t => t.id = tradeId && t.status = TradeStatus.OPEN) with
  | none => Except.error CloseError.notFound
  | some trade =>
      match getMarketData st trade.symbol with
      | none => Except.error CloseError.marketDataUnavailable
      | some closePrice =>
          let pnl := realizedPnL trade.type closePrice trade.entryPrice trade.quantity
          match Storage.closeTrade st tradeId closePrice pnl with
          | (none, _) => Except.error CloseError.closeFailed
          | (some closedTrade, st₁) =>
              Except.ok (closedTrade, updatePortfolioAfterTrade userId closedTrade st₁)

/-- TradingEngine.executeTrade: validate with the risk manager (rejecting
with the validator reason), execute at the venue, then persist the trade
with the executed price substituted for the requested one and apply the
(zero-delta) portfolio update.  The slippage drawn by the venue is the
explicit argument slip. -/
def executeTrade (rs : RiskManager.RiskSettings) (conns : BrokerAPI.Connections)
    (tradeData : InsertTrade) (slip : ℚ) (st : EngineState) :
    Except ExecError (Trade × EngineState) :=
  let riskCheck := RiskManager.validateTrade rs tradeData
    (getPortfolio st tradeData.userId) (getActiveTrades st tradeData.userId)
  if !riskCheck.allowed then Except.error (ExecError.riskRejected riskCheck.reason)
  else
    match BrokerAPI.executeTrade conns
        { symbol := tradeData.symbol
          side := tradeData.type
          quantity := tradeData.quantity
          price := tradeData.entryPrice
          stopLoss := tradeData.stopLoss
          takeProfit := tradeData.takeProfit } slip with
    | Except.error e => Except.error (ExecError.venue e)
    | Except.ok result =>
        let (trade, st₁) := createTrade st
          { tradeData with entryPrice := result.executedPrice }
        let trade₁ : Trade := { trade with currentPrice := some result.executedPrice }
        let st₂ := { st₁ with
          trades := st₁.trades.map (fun u => if u.id = trade.id then trade₁ else u) }
        Except.ok (trade₁, updatePortfolioAfterTrade tradeData.userId trade₁ st₂)

/-- Exit trigger recorded by the position monitor. -/
inductive ExitReason where
  | stopLossHit
  | takeProfitHit
  deriving DecidableEq, Repr

/-- TradingEngine.checkTradeExitConditions, reduced to its decision: the
four guards in source order (stop-loss for BUY, stop-loss for SELL,
take-profit for BUY, take-profit for SELL); some reason means the source
would invoke closeTrade with that reason.  An absent or empty stop/target
string is falsy and skips that side. -/
def checkTradeExitConditions (trade : Trade) (currentPrice : JNum) : Option ExitReason :=
  if trade.stopLoss.isSome && trade.type == TradeType.BUY &&
      jle currentPrice (trade.stopLoss.getD (num 0)) then
    some ExitReason.stopLossHit
  else if trade.stopLoss.isSome && trade.type == TradeType.SELL &&
      jge currentPrice (trade.stopLoss.getD (num 0)) then
    some ExitReason.stopLossHit
  else if trade.takeProfit.isSome && trade.type == TradeType.BUY &&
      jge currentPrice (trade.takeProfit.getD (num 0)) then
    some ExitReason.takeProfitHit
  else if trade.takeProfit.isSome && trade.type == TradeType.SELL &&
      jle currentPrice (trade.takeProfit.getD (num 0)) then
    some ExitReason.takeProfitHit
  else none

end TradingEngine

deriving instance DecidableEq for Except

namespace Race

open Storage TradingEngine

/-- Control point of one in-flight TradingEngine.closeTrade invocation.
Every await of the source is a yield point of the event loop; consecutive
awaits whose effects on the modelled state are no-ops (the venue closure
and the audit record) are merged into their successor, and the portfolio
read and write are merged into one atomic step.  Merging yield points only
removes interleavings, so any behaviour of this coarser machine is a
behaviour of the source. -/
inductive Phase where
  | start
  | foundTrade (trade : Trade)
  | gotPrice (trade : Trade) (closePrice : JNum)
  | wroteClose (closedTrade : Trade)
  | finished (result : Except CloseError (Option Trade))
  deriving DecidableEq, Repr

/-- One atomic step of a closeTrade invocation for (tradeId, userId)
against the shared storage state. -/
def threadStep (tradeId : ℕ) (userId : ℤ) (ph : Phase) (st : EngineState) :
    Phase × EngineState :=
  match ph with
  | Phase.start =>
      match (getTrades st userId).find?
          (fun t => t.id = tradeId && t.status = TradeStatus.OPEN) with
      | none => (Phase.finished (Except.error CloseError.notFound), st)
      | some trade => (Phase.foundTrade trade, st)
  | Phase.foundTrade trade =>
      match getMarketData st trade.symbol with
      | none => (Phase.finished (Except.error CloseError.marketDataUnavailable), st)
      | some closePrice => (Phase.gotPrice trade closePrice, st)
  | Phase.gotPrice trade closePrice =>
      let pnl := realizedPnL trade.type closePrice trade.entryPrice trade.quantity
      match Storage.closeTrade st tradeId closePrice pnl with
      | (none, st₁) => (Phase.finished (Except.error CloseError.closeFailed), st₁)
      | (some closedTrade, st₁) => (Phase.wroteClose closedTrade, st₁)
  | Phase.wroteClose closedTrade =>
      (Phase.finished (Except.ok (some closedTrade)),
       updatePortfolioAfterTrade userId closedTrade st)
  | Phase.finished r => (Phase.finished r, st)

/-- Configuration of two concurrent closeTrade invocations for the same
(tradeId, userId) over the shared storage. -/
structure Config where
  first : Phase
  second : Phase
  shared : EngineState
  deriving DecidableEq, Repr

/-- Run one scheduled step: true steps the first invocation, false the
second. -/
def schedStep (tradeId : ℕ) (userId : ℤ) (cfg : Config) (pickFirst : Bool) : Config :=
  if pickFirst then
    let (ph, st) := threadStep tradeId userId cfg.first cfg.shared
    { cfg with first := ph, shared := st }
  else
    let (ph, st) := threadStep tradeId userId cfg.second cfg.shared
    { cfg with second := ph, shared := st }

/-- Run a whole schedule of interleaved steps. -/
def runSchedule (tradeId : ℕ) (userId : ℤ) (sched : List Bool) (st : EngineState) : Config :=
  sched.foldl (schedStep tradeId userId) { first := Phase.start, second := Phase.start, shared := st }

end Race

/-! Concrete fixtures used by the theorems below. -/

section Fixtures

open JNum

/-- Portfolio worth 100000 with zero daily and cumulative P&L. -/
def portfolio100k : Portfolio :=
  { userId := 1, totalValue := num 100000, dailyPnL := num 0, totalPnL := num 0 }

/-- Portfolio worth 100000 with a 6000 daily loss (6 percent, above the 5
percent ceiling) and zero cumulative P&L. -/
def portfolioDailyLoss6 : Portfolio :=
  { userId := 1, totalValue := num 100000, dailyPnL := num (-6000), totalPnL := num 0 }

/-- Proposal for a 6 percent position: entry 100, quantity 60. -/
def sizeTrade : InsertTrade :=
  { userId := 1, symbol := "AAPL", type := TradeType.BUY, status := TradeStatus.OPEN,
    entryPrice := num 100, quantity := num 60, stopLoss := none, takeProfit := none }

/-- Proposal whose entry price string is malformed: parseFloat yields NaN. -/
def malformedTrade : InsertTrade :=
  { userId := 1, symbol := "AAPL", type := TradeType.BUY, status := TradeStatus.OPEN,
    entryPrice := JNum.nan, quantity := num 1, stopLoss := none, takeProfit := none }

/-- Storage state holding only the 100000 portfolio of user 1. -/
def stateWith100k : Storage.EngineState :=
  { trades := [], portfolios := [portfolio100k], marketPrices := [], nextTradeId := 1 }

/-- BUY parameters with the stop on the wrong side of entry (150 at or
above the 100 entry) and no take profit. -/
def wrongSideStopParams : TradingUtils.TradeParams :=
  { symbol := "AAPL", quantity := num 1, entryPrice := num 100,
    stopLoss := some (num 150), takeProfit := none, tradeType := TradeType.BUY }

/-- BUY parameters with both levels present and the stop on the wrong
side of entry. -/
def wrongSideBothParams : TradingUtils.TradeParams :=
  { symbol := "AAPL", quantity := num 1, entryPrice := num 100,
    stopLoss := some (num 150), takeProfit := some (num 200), tradeType := TradeType.BUY }

/-- LSTM sub-strategy output voting BUY at confidence 70. -/
def lstmBuy70 : AIModels.PartialSignal :=
  { symbol := "EUR/USD", signal := AIModels.SigDir.BUY, confidence := some (num 70),
    model := "LSTM", entryPrice := num 108, stopLoss := some (num 107),
    takeProfit := some (num 110) }

/-- XGBoost sub-strategy output voting BUY at confidence 65. -/
def xgbBuy65 : AIModels.PartialSignal :=
  { symbol := "EUR/USD", signal := AIModels.SigDir.BUY, confidence := some (num 65),
    model := "XGBoost", entryPrice := num 109, stopLoss := some (num 105),
    takeProfit := some (num 112) }

/-- CNN sub-strategy output voting HOLD at confidence 50. -/
def cnnHold : AIModels.PartialSignal :=
  { symbol := "EUR/USD", signal := AIModels.SigDir.HOLD, confidence := some (num 50),
    model := "CNN", entryPrice := num 107, stopLoss := none, takeProfit := none }

/-- Venue map with Binance and Capital.com connected and MetaTrader
disconnected. -/
def connsMetaDown : BrokerAPI.Connections :=
  { capitalCom := { name := "Capital.com", connected := true, latency := 45 }
    binance := { name := "Binance", connected := true, latency := 32 }
    metatrader := { name := "MetaTrader", connected := false, latency := 0 } }

/-- Execute request for a bare ticker, routed to MetaTrader. -/
def aaplRequest : BrokerAPI.TradeRequest :=
  { symbol := "AAPL", side := TradeType.BUY, quantity := num 10, price := num 185,
    stopLoss := none, takeProfit := none }

/-- Open BUY position: id 1, user 1, entry 100, quantity 2. -/
def openBuyTrade : Trade :=
  { id := 1, userId := 1, symbol := "EUR/USD", type := TradeType.BUY,
    status := TradeStatus.OPEN, entryPrice := num 100, currentPrice := some (num 100),
    quantity := num 2, stopLoss := none, takeProfit := none, pnl := some (num 0) }

/-- Portfolio of user 1 worth 1000 with zero P&L. -/
def racePortfolio : Portfolio :=
  { userId := 1, totalValue := num 1000, dailyPnL := num 0, totalPnL := num 0 }

/-- Storage state with the open BUY position, a current market price of
110 for its symbol (realized P&L 20 on close) and a 1000 portfolio. -/
def raceState : Storage.EngineState :=
  { trades := [openBuyTrade]
    portfolios := [racePortfolio]
    marketPrices := [("EUR/USD", num 110)]
    nextTradeId := 2 }

/-- CLOSED image of the open BUY position after a close at 110. -/
def closedBuyTrade : Trade :=
  { openBuyTrade with
      status := TradeStatus.CLOSED
      currentPrice := some (num 110)
      pnl := some (num 20) }

/-- Interleaving in which both invocations read the trade list (and find
the position OPEN) before either writes: the first invocation then runs to
completion, then the second. -/
def racingSchedule : List Bool :=
  [true, false, true, true, true, false, false, false]

/-- Serialized schedule: the first invocation runs to completion before
the second starts. -/
def serialSchedule : List Bool :=
  [true, true, true, true, false, false, false, false]

/-- BUY position with contradictory exit levels relative to a price of 95:
the price is at once below the 96 stop and above the 94 target. -/
def contradictoryBuyTrade : Trade :=
  { id := 7, userId := 1, symbol := "EUR/USD", type := TradeType.BUY,
    status := TradeStatus.OPEN, entryPrice := num 100, currentPrice := some (num 95),
    quantity := num 1, stopLoss := some (num 96), takeProfit := some (num 94),
    pnl := some (num 0) }

end Fixtures

/-! Arithmetic lemmas for the JavaScript number model. -/

namespace JNum

@[simp] theorem jneg_num (a : ℚ) : jneg (num a) = num (-a) := rfl

@[simp] theorem jadd_num (a b : ℚ) : jadd (num a) (num b) = num (a + b) := rfl

@[simp] theorem jsub_num (a b : ℚ) : jsub (num a) (num b) = num (a - b) := by
  simp [jsub, jadd, jneg, sub_eq_add_neg]

@[simp] theorem jmul_num (a b : ℚ) : jmul (num a) (num b) = num (a * b) := rfl

@[simp] theorem jlt_num (a b : ℚ) : jlt (num a) (num b) = decide (a < b) := rfl

@[simp] theorem jle_num (a b : ℚ) : jle (num a) (num b) = decide (a ≤ b) := rfl

@[simp] theorem jgt_num (a b : ℚ) : jgt (num a) (num b) = decide (b < a) := rfl

@[simp] theorem jge_num (a b : ℚ) : jge (num a) (num b) = decide (b ≤ a) := rfl

@[simp] theorem jeq_num (a b : ℚ) : jeq (num a) (num b) = decide (a = b) := rfl

@[simp] theorem jabs_num (a : ℚ) : jabs (num a) = num |a| := rfl

@[simp] theorem jmax_num (a b : ℚ) : jmax (num a) (num b) = num (max a b) := rfl

theorem jdiv_num_of_ne_zero (a b : ℚ) (h : b ≠ 0) :
    jdiv (num a) (num b) = num (a / b) := by
  simp [jdiv, h]

end JNum

/-! Helper lemmas about the storage and ensemble models. -/

open JNum

/-- Updating every portfolio of a user in a list and searching for that
user finds the updated portfolio, provided the search succeeded before. -/
theorem find?_userId_map_update (l : List Portfolio) (uid : ℤ) (p upd : Portfolio)
    (h : l.find? (fun x => x.userId = uid) = some p) (hupd : upd.userId = uid) :
    (l.map (fun x => if x.userId = uid then upd else x)).find?
      (fun x => x.userId = uid) = some upd := by
  induction l with
  | nil => simp at h
  | cons a l ih =>
      by_cases ha : a.userId = uid
      · simp only [List.map_cons, if_pos ha]
        rw [List.find?_cons_of_pos _ (by simp [hupd])]
      · simp only [List.map_cons, if_neg ha]
        rw [List.find?_cons_of_neg _ (by simp [ha])] at h
        rw [List.find?_cons_of_neg _ (by simp [ha])]
        exact ih h

/-- Weighted scores accumulated by the ensemble fold over the three
sub-strategy outputs in LSTM, XGBoost, CNN order: the BUY score is the sum
of confidence times weight over the BUY-voting outputs, the SELL score
likewise over the SELL-voting outputs. -/
theorem combineStep_fold_scores (sym0 sym1 sym2 : String) (d0 d1 d2 : AIModels.SigDir)
    (c0 c1 c2 : ℚ) (e0 e1 e2 : JNum) (sl0 sl1 sl2 tp0 tp1 tp2 : Option JNum) :
    (([{ symbol := sym0, signal := d0, confidence := some (num c0), model := "LSTM",
         entryPrice := e0, stopLoss := sl0, takeProfit := tp0 },
       { symbol := sym1, signal := d1, confidence := some (num c1), model := "XGBoost",
         entryPrice := e1, stopLoss := sl1, takeProfit := tp1 },
       { symbol := sym2, signal := d2, confidence := some (num c2), model := "CNN",
         entryPrice := e2, stopLoss := sl2, takeProfit := tp2 }] :
          List AIModels.PartialSignal).foldl AIModels.combineStep
        { buyScore := num 0, sellScore := num 0, totalConfidence := num 0 }).buyScore =
      num ((if d0 = AIModels.SigDir.BUY then c0 * (4 / 10) else 0) +
           (if d1 = AIModels.SigDir.BUY then c1 * (35 / 100) else 0) +
           (if d2 = AIModels.SigDir.BUY then c2 * (25 / 100) else 0)) ∧
    (([{ symbol := sym0, signal := d0, confidence := some (num c0), model := "LSTM",
         entryPrice := e0, stopLoss := sl0, takeProfit := tp0 },
       { symbol := sym1, signal := d1, confidence := some (num c1), model := "XGBoost",
         entryPrice := e1, stopLoss := sl1, takeProfit := tp1 },
       { symbol := sym2, signal := d2, confidence := some (num c2), model := "CNN",
         entryPrice := e2, stopLoss := sl2, takeProfit := tp2 }] :
          List AIModels.PartialSignal).foldl AIModels.combineStep
        { buyScore := num 0, sellScore := num 0, totalConfidence := num 0 }).sellScore =
      num ((if d0 = AIModels.SigDir.SELL then c0 * (4 / 10) else 0) +
           (if d1 = AIModels.SigDir.SELL then c1 * (35 / 100) else 0) +
           (if d2 = AIModels.SigDir.SELL then c2 * (25 / 100) else 0)) := by
  rcases d0 <;> rcases d1 <;> rcases d2 <;>
    simp [AIModels.combineStep, AIModels.weight, List.foldl]

/-- Direction picked by the ensemble, expressed through the accumulated
BUY and SELL scores: a side wins only when its score strictly exceeds both
the other side and the 60 threshold, and otherwise the result is HOLD. -/
theorem combineSignals_signal_of_scores (s0 : AIModels.PartialSignal)
    (rest : List AIModels.PartialSignal) (buy sell : ℚ)
    (hbuy : ((s0 :: rest).foldl AIModels.combineStep
        { buyScore := num 0, sellScore := num 0,
          totalConfidence := num 0 }).buyScore = num buy)
    (hsell : ((s0 :: rest).foldl AIModels.combineStep
        { buyScore := num 0, sellScore := num 0,
          totalConfidence := num 0 }).sellScore = num sell) :
    (AIModels.combineSignals (s0 :: rest)).map (fun out => out.signal) =
      some (if buy > sell ∧ buy > 60 then AIModels.SigDir.BUY
            else if sell > buy ∧ sell > 60 then AIModels.SigDir.SELL
            else AIModels.SigDir.HOLD) := by
  simp only [AIModels.combineSignals, hbuy, hsell, Option.map_some, jgt_num,
    Bool.and_eq_true, decide_eq_true_eq, gt_iff_lt]
  by_cases h1 : sell < buy ∧ 60 < buy
  · simp [h1]
  · by_cases h2 : buy < sell ∧ 60 < sell
    · simp [h1, h2]
    · simp [h1, h2]

/-! Claim theorems. -/

/-- Claim C1: against the claimed exactly-once OPEN to CLOSED transition,
the interleaving in which both closeTrade invocations read the trade list
before either writes lets both invocations succeed and apply the realized
P&L delta of 20 to the portfolio twice (total P&L 40), with no NotFound
observed; under the serialized schedule the second invocation does observe
NotFound and the delta is applied once (total P&L 20).  The code has no
per-position serialization, so the double application is reachable. -/
theorem claim_C1_concurrent_close_double_applies_delta :
    (Race.runSchedule 1 1 racingSchedule raceState).first =
        Race.Phase.finished (Except.ok (some closedBuyTrade)) ∧
    (Race.runSchedule 1 1 racingSchedule raceState).second =
        Race.Phase.finished (Except.ok (some closedBuyTrade)) ∧
    Storage.getPortfolio (Race.runSchedule 1 1 racingSchedule raceState).shared 1 =
      some { userId := 1, totalValue := num 1040, dailyPnL := num 40, totalPnL := num 40 } ∧
    (Race.runSchedule 1 1 serialSchedule raceState).second =
        Race.Phase.finished (Except.error TradingEngine.CloseError.notFound) ∧
    Storage.getPortfolio (Race.runSchedule 1 1 serialSchedule raceState).shared 1 =
      some { userId := 1, totalValue := num 1020, dailyPnL := num 20, totalPnL := num 20 } := by
  simp [Race.runSchedule, Race.schedStep, Race.threadStep, racingSchedule, serialSchedule,
    raceState, racePortfolio, openBuyTrade, closedBuyTrade, Storage.getTrades,
    Storage.getMarketData, Storage.getPortfolio, Storage.updatePortfolio,
    Storage.closeTrade, TradingEngine.updatePortfolioAfterTrade, TradingEngine.realizedPnL,
    List.find?, List.filter, List.foldl,
    JNum.jmul, JNum.jdiv, JNum.jadd, JNum.jsub, JNum.jneg]
  norm_num

/-- Claim C2: a proposal whose entry price string is malformed (parseFloat
NaN) is not rejected: every risk check passes on NaN, and validateTrade
returns allowed true with the approval reason and a NaN risk score,
contradicting the claimed fail-closed behaviour. -/
theorem claim_C2_malformed_entry_price_fails_open :
    RiskManager.validateTrade RiskManager.defaultRiskSettings malformedTrade
      (some portfolio100k) [] =
    { allowed := true, reason := RiskManager.Reason.tradeApproved,
      riskScore := JNum.nan } := by
  simp [RiskManager.validateTrade, RiskManager.checkPositionSize,
    RiskManager.checkTotalRiskExposure, RiskManager.checkDailyLoss,
    RiskManager.checkDrawdown, RiskManager.checkCorrelation,
    RiskManager.calculateRiskScore, RiskManager.calculateTradeRisk,
    RiskManager.defaultRiskSettings, malformedTrade, portfolio100k,
    JNum.jmul, JNum.jdiv, JNum.jadd, JNum.jsub, JNum.jneg, JNum.jabs, JNum.jmax,
    JNum.jlt, JNum.jle, JNum.jgt, JNum.jge, JNum.jeq, List.filter]
  norm_num

/-- Claim C3, counterexample: a BUY proposal whose stop (150) is at or
above entry (100), with no take profit provided, is accepted by
validateTradeParameters with no error, so a wrong-side stop is not
universally rejected. -/
theorem claim_C3_wrong_side_stop_accepted_without_target :
    (TradingUtils.validateTradeParameters wrongSideStopParams).isValid = true ∧
    jge (num 150) (num 100) = true := by
  constructor
  · simp [TradingUtils.validateTradeParameters, TradingUtils.sideErrors,
      wrongSideStopParams, JNum.jle, JNum.jTruthy, strBlank]
  · norm_num [JNum.jge, JNum.jle]

/-- Claim C3, amended: when truthy stop and target are BOTH provided,
any proposal whose stop or target lies on the wrong side of entry for its
direction is rejected by validateTradeParameters (the levels are never
altered, only validated). -/
theorem claim_C3_wrong_side_rejected_when_both_levels_present
    (params : TradingUtils.TradeParams) (sl tp ep : ℚ)
    (hsl : params.stopLoss = some (num sl)) (htp : params.takeProfit = some (num tp))
    (hep : params.entryPrice = num ep) (hsl0 : sl ≠ 0) (htp0 : tp ≠ 0)
    (hwrong : (params.tradeType = TradeType.BUY ∧ (ep ≤ sl ∨ tp ≤ ep)) ∨
              (params.tradeType = TradeType.SELL ∧ (sl ≤ ep ∨ ep ≤ tp))) :
    (TradingUtils.validateTradeParameters params).isValid = false := by
  have hside : TradingUtils.sideErrors params ≠ [] := by
    rcases hwrong with ⟨hty, hw⟩ | ⟨hty, hw⟩ <;>
      rcases hw with hw | hw <;>
        simp [TradingUtils.sideErrors, hsl, htp, hep, hty, JNum.jTruthy, hsl0, htp0,
          JNum.jle, JNum.jge, hw, List.append_eq_nil]
  simp only [TradingUtils.validateTradeParameters, List.isEmpty_iff, List.append_eq_nil]
  simp [hside]

/-- Claim C3, witness for the amended statement: a BUY proposal with both
levels given and the stop above entry is rejected. -/
theorem claim_C3_amended_witness :
    (TradingUtils.validateTradeParameters wrongSideBothParams).isValid = false :=
  claim_C3_wrong_side_rejected_when_both_levels_present wrongSideBothParams 150 200 100
    rfl rfl rfl (by norm_num) (by norm_num) (Or.inl ⟨rfl, Or.inl (by norm_num)⟩)

/-- Claim C4: validateTrade returns exactly the result of the first
failing check in the order position size, aggregate exposure, daily loss,
drawdown, concentration, and the approval with the aggregate risk score
when every check passes; on the fixture violating both the size check and
the daily-loss check it returns the size-check result with risk score
12. -/
theorem claim_C4_first_failing_check_returned (rs : RiskManager.RiskSettings)
    (td : InsertTrade) (p : Portfolio) (trades : List Trade) :
    (RiskManager.validateTrade rs td (some p) trades =
      (if (RiskManager.checkPositionSize rs td p).allowed = false then
        RiskManager.checkPositionSize rs td p
      else if (RiskManager.checkTotalRiskExposure rs trades p).allowed = false then
        RiskManager.checkTotalRiskExposure rs trades p
      else if (RiskManager.checkDailyLoss rs p).allowed = false then
        RiskManager.checkDailyLoss rs p
      else if (RiskManager.checkDrawdown rs p).allowed = false then
        RiskManager.checkDrawdown rs p
      else if (RiskManager.checkCorrelation td trades).allowed = false then
        RiskManager.checkCorrelation td trades
      else
        { allowed := true, reason := RiskManager.Reason.tradeApproved,
          riskScore := RiskManager.calculateRiskScore rs td p trades })) ∧
    (RiskManager.checkDailyLoss RiskManager.defaultRiskSettings portfolioDailyLoss6).allowed
        = false ∧
    RiskManager.validateTrade RiskManager.defaultRiskSettings sizeTrade
        (some portfolioDailyLoss6) [] =
      { allowed := false, reason := RiskManager.Reason.positionSizeExceeded,
        riskScore := num 12 } := by
  refine ⟨?_, ?_, ?_⟩
  · cases h1 : (RiskManager.checkPositionSize rs td p).allowed <;>
    cases h2 : (RiskManager.checkTotalRiskExposure rs trades p).allowed <;>
    cases h3 : (RiskManager.checkDailyLoss rs p).allowed <;>
    cases h4 : (RiskManager.checkDrawdown rs p).allowed <;>
    cases h5 : (RiskManager.checkCorrelation td trades).allowed <;>
    simp [RiskManager.validateTrade, List.filter, h1, h2, h3, h4, h5]
  · simp [RiskManager.checkDailyLoss, RiskManager.defaultRiskSettings, portfolioDailyLoss6,
      JNum.jmul, JNum.jdiv, JNum.jadd, JNum.jsub, JNum.jneg, JNum.jabs,
      JNum.jlt, JNum.jgt]
    norm_num [abs_of_nonneg]
  · simp [RiskManager.validateTrade, RiskManager.checkPositionSize,
      RiskManager.checkTotalRiskExposure, RiskManager.checkDailyLoss,
      RiskManager.checkDrawdown, RiskManager.checkCorrelation,
      RiskManager.calculateRiskScore, RiskManager.calculateTradeRisk,
      RiskManager.defaultRiskSettings, sizeTrade, portfolioDailyLoss6,
      JNum.jmul, JNum.jdiv, JNum.jadd, JNum.jsub, JNum.jneg, JNum.jabs, JNum.jmax,
      JNum.jlt, JNum.jle, JNum.jgt, JNum.jge, JNum.jeq, List.filter]
    norm_num

/-- Claim C5: the ensemble sums confidence times weight (0.40, 0.35,
0.25) separately over the BUY-voting and SELL-voting sub-strategies,
returns a side only when its weighted mass strictly exceeds both the other
mass and the 60 threshold, and returns HOLD otherwise (ties included); on
the fixture BUY 70, BUY 65, HOLD the BUY mass is 50.75 and the result is
HOLD. -/
theorem claim_C5_ensemble_weighted_threshold (sym0 sym1 sym2 : String)
    (d0 d1 d2 : AIModels.SigDir) (c0 c1 c2 : ℚ) (e0 e1 e2 : JNum)
    (sl0 sl1 sl2 tp0 tp1 tp2 : Option JNum) :
    ((AIModels.combineSignals
        [{ symbol := sym0, signal := d0, confidence := some (num c0), model := "LSTM",
           entryPrice := e0, stopLoss := sl0, takeProfit := tp0 },
         { symbol := sym1, signal := d1, confidence := some (num c1), model := "XGBoost",
           entryPrice := e1, stopLoss := sl1, takeProfit := tp1 },
         { symbol := sym2, signal := d2, confidence := some (num c2), model := "CNN",
           entryPrice := e2, stopLoss := sl2, takeProfit := tp2 }]).map
        (fun out => out.signal) =
      some
        (if (if d0 = AIModels.SigDir.BUY then c0 * (4 / 10) else 0) +
              (if d1 = AIModels.SigDir.BUY then c1 * (35 / 100) else 0) +
              (if d2 = AIModels.SigDir.BUY then c2 * (25 / 100) else 0) >
            (if d0 = AIModels.SigDir.SELL then c0 * (4 / 10) else 0) +
              (if d1 = AIModels.SigDir.SELL then c1 * (35 / 100) else 0) +
              (if d2 = AIModels.SigDir.SELL then c2 * (25 / 100) else 0) ∧
            (if d0 = AIModels.SigDir.BUY then c0 * (4 / 10) else 0) +
              (if d1 = AIModels.SigDir.BUY then c1 * (35 / 100) else 0) +
              (if d2 = AIModels.SigDir.BUY then c2 * (25 / 100) else 0) > 60 then
          AIModels.SigDir.BUY
        else if (if d0 = AIModels.SigDir.SELL then c0 * (4 / 10) else 0) +
              (if d1 = AIModels.SigDir.SELL then c1 * (35 / 100) else 0) +
              (if d2 = AIModels.SigDir.SELL then c2 * (25 / 100) else 0) >
            (if d0 = AIModels.SigDir.BUY then c0 * (4 / 10) else 0) +
              (if d1 = AIModels.SigDir.BUY then c1 * (35 / 100) else 0) +
              (if d2 = AIModels.SigDir.BUY then c2 * (25 / 100) else 0) ∧
            (if d0 = AIModels.SigDir.SELL then c0 * (4 / 10) else 0) +
              (if d1 = AIModels.SigDir.SELL then c1 * (35 / 100) else 0) +
              (if d2 = AIModels.SigDir.SELL then c2 * (25 / 100) else 0) > 60 then
          AIModels.SigDir.SELL
        else AIModels.SigDir.HOLD)) ∧
    (AIModels.combineSignals [lstmBuy70, xgbBuy65, cnnHold]).map (fun out => out.signal) =
      some AIModels.SigDir.HOLD ∧
    ([lstmBuy70, xgbBuy65, cnnHold].foldl AIModels.combineStep
        { buyScore := num 0, sellScore := num 0, totalConfidence := num 0 }).buyScore =
      num (5075 / 100) ∧
    ([lstmBuy70, xgbBuy65, cnnHold].foldl AIModels.combineStep
        { buyScore := num 0, sellScore := num 0, totalConfidence := num 0 }).sellScore =
      num 0 := by
  refine ⟨?_, ?_, ?_, ?_⟩
  · have hm := combineStep_fold_scores sym0 sym1 sym2 d0 d1 d2 c0 c1 c2 e0 e1 e2
      sl0 sl1 sl2 tp0 tp1 tp2
    exact combineSignals_signal_of_scores _ _ _ _ hm.1 hm.2
  · simp [AIModels.combineSignals, AIModels.combineStep, AIModels.weight,
      lstmBuy70, xgbBuy65, cnnHold, List.foldl, JNum.jadd, JNum.jmul, JNum.jmax,
      JNum.jlt, JNum.jgt]
    norm_num
  · simp [AIModels.combineStep, AIModels.weight, lstmBuy70, xgbBuy65, cnnHold,
      List.foldl, JNum.jadd, JNum.jmul]
    norm_num
  · simp [AIModels.combineStep, AIModels.weight, lstmBuy70, xgbBuy65, cnnHold,
      List.foldl, JNum.jadd, JNum.jmul]

/-- Claim C6: closing an existing OPEN position with a current market
price realizes P&L equal to (close minus entry) times quantity for a BUY
and (entry minus close) times quantity for a SELL, persists the position
as CLOSED with that P&L, and adds exactly that amount to each of the
portfolio totalValue, dailyPnL and totalPnL as an additive delta. -/
theorem claim_C6_close_persists_and_applies_delta (st : Storage.EngineState)
    (tradeId : ℕ) (userId : ℤ) (trade : Trade) (p : Portfolio) (cp ep q : ℚ)
    (hfind : (Storage.getTrades st userId).find?
        (fun t => t.id = tradeId && t.status = TradeStatus.OPEN) = some trade)
    (hfindId : st.trades.find? (fun t => t.id = tradeId) = some trade)
    (hmkt : Storage.getMarketData st trade.symbol = some (num cp))
    (hp : Storage.getPortfolio st userId = some p)
    (hep : trade.entryPrice = num ep) (hq : trade.quantity = num q) :
    ∃ st₂ : Storage.EngineState,
      TradingEngine.closeTrade tradeId userId st =
        Except.ok
          ({ trade with
              status := TradeStatus.CLOSED
              currentPrice := some (num cp)
              pnl := some (num (if trade.type = TradeType.BUY then (cp - ep) * q
                  else (ep - cp) * q)) }, st₂) ∧
      st₂.trades = st.trades.map (fun u =>
        if u.id = tradeId then
          { trade with
              status := TradeStatus.CLOSED
              currentPrice := some (num cp)
              pnl := some (num (if trade.type = TradeType.BUY then (cp - ep) * q
                  else (ep - cp) * q)) }
        else u) ∧
      Storage.getPortfolio st₂ userId = some
        { p with
            totalValue := jadd p.totalValue
              (num (if trade.type = TradeType.BUY then (cp - ep) * q else (ep - cp) * q))
            dailyPnL := jadd p.dailyPnL
              (num (if trade.type = TradeType.BUY then (cp - ep) * q else (ep - cp) * q))
            totalPnL := jadd p.totalPnL
              (num (if trade.type = TradeType.BUY then (cp - ep) * q else (ep - cp) * q)) } := by
  have hpnl : TradingEngine.realizedPnL trade.type (num cp) trade.entryPrice trade.quantity =
      num (if trade.type = TradeType.BUY then (cp - ep) * q else (ep - cp) * q) := by
    cases h : trade.type <;> simp [TradingEngine.realizedPnL, hep, hq, h]
  have hpuid : p.userId = userId := by
    have := List.find?_some hp
    simpa using this
  refine ⟨Storage.updatePortfolio
      { st with trades := st.trades.map (fun u =>
          if u.id = tradeId then
            { trade with
                status := TradeStatus.CLOSED
                currentPrice := some (num cp)
                pnl := some (num (if trade.type = TradeType.BUY then (cp - ep) * q
                    else (ep - cp) * q)) }
          else u) } userId
      (jadd p.totalValue
        (num (if trade.type = TradeType.BUY then (cp - ep) * q else (ep - cp) * q)))
      (jadd p.dailyPnL
        (num (if trade.type = TradeType.BUY then (cp - ep) * q else (ep - cp) * q)))
      (jadd p.totalPnL
        (num (if trade.type = TradeType.BUY then (cp - ep) * q else (ep - cp) * q))),
    ?_, ?_, ?_⟩
  · simp only [TradingEngine.closeTrade, hfind, hmkt, Storage.closeTrade, hfindId, hpnl,
      TradingEngine.updatePortfolioAfterTrade]
    rw [show Storage.getPortfolio
        { st with trades := st.trades.map (fun u =>
            if u.id = tradeId then
              { trade with
                  status := TradeStatus.CLOSED
                  currentPrice := some (num cp)
                  pnl := some (num (if trade.type = TradeType.BUY then (cp - ep) * q
                      else (ep - cp) * q)) }
            else u) } userId = some p from hp]
    rfl
  · simp only [Storage.updatePortfolio]
    rw [show Storage.getPortfolio
        { st with trades := st.trades.map (fun u =>
            if u.id = tradeId then
              { trade with
                  status := TradeStatus.CLOSED
                  currentPrice := some (num cp)
                  pnl := some (num (if trade.type = TradeType.BUY then (cp - ep) * q
                      else (ep - cp) * q)) }
            else u) } userId = some p from hp]
  · simp only [Storage.updatePortfolio]
    rw [show Storage.getPortfolio
        { st with trades := st.trades.map (fun u =>
            if u.id = tradeId then
              { trade with
                  status := TradeStatus.CLOSED
                  currentPrice := some (num cp)
                  pnl := some (num (if trade.type = TradeType.BUY then (cp - ep) * q
                      else (ep - cp) * q)) }
            else u) } userId = some p from hp]
    exact find?_userId_map_update st.portfolios userId p _ hp hpuid

/-- Claim C6, witness: closing the open BUY position of the race fixture
at market price 110 realizes 20 and adds 20 to every portfolio total. -/
theorem claim_C6_witness :
    ∃ st₂ : Storage.EngineState,
      TradingEngine.closeTrade 1 1 raceState =
        Except.ok
          ({ openBuyTrade with
              status := TradeStatus.CLOSED
              currentPrice := some (num 110)
              pnl := some (num (if openBuyTrade.type = TradeType.BUY then (110 - 100) * 2
                  else (100 - 110) * 2)) }, st₂) ∧
      st₂.trades = raceState.trades.map (fun u =>
        if u.id = 1 then
          { openBuyTrade with
              status := TradeStatus.CLOSED
              currentPrice := some (num 110)
              pnl := some (num (if openBuyTrade.type = TradeType.BUY then (110 - 100) * 2
                  else (100 - 110) * 2)) }
        else u) ∧
      Storage.getPortfolio st₂ 1 = some
        { racePortfolio with
            totalValue := jadd racePortfolio.totalValue
              (num (if openBuyTrade.type = TradeType.BUY then (110 - 100) * 2
                  else (100 - 110) * 2))
            dailyPnL := jadd racePortfolio.dailyPnL
              (num (if openBuyTrade.type = TradeType.BUY then (110 - 100) * 2
                  else (100 - 110) * 2))
            totalPnL := jadd racePortfolio.totalPnL
              (num (if openBuyTrade.type = TradeType.BUY then (110 - 100) * 2
                  else (100 - 110) * 2)) } :=
  claim_C6_close_persists_and_applies_delta raceState 1 1 openBuyTrade racePortfolio
    110 100 2 rfl rfl rfl rfl rfl rfl

/-- Claim C7: the position-size check rejects exactly when the trade value
as a percentage of the portfolio total exceeds 5, and then reports a risk
score of twice that percentage; on the fixture with total 100000, entry
100, quantity 60 (a 6 percent position) validation fails with the
position-size reason and risk score 12, and the engine open path surfaces
the rejection. -/
theorem claim_C7_position_size_check (td : InsertTrade) (p : Portfolio) (ep q tv : ℚ)
    (hep : td.entryPrice = num ep) (hq : td.quantity = num q)
    (htv : p.totalValue = num tv) (htv0 : tv ≠ 0) :
    (((RiskManager.checkPositionSize RiskManager.defaultRiskSettings td p).allowed = false)
        ↔ ep * q / tv * 100 > 5) ∧
    (ep * q / tv * 100 > 5 →
      RiskManager.checkPositionSize RiskManager.defaultRiskSettings td p =
        { allowed := false, reason := RiskManager.Reason.positionSizeExceeded,
          riskScore := num (ep * q / tv * 100 * 2) }) ∧
    RiskManager.validateTrade RiskManager.defaultRiskSettings sizeTrade
        (some portfolio100k) [] =
      { allowed := false, reason := RiskManager.Reason.positionSizeExceeded,
        riskScore := num 12 } ∧
    TradingEngine.executeTrade RiskManager.defaultRiskSettings connsMetaDown sizeTrade 0
        stateWith100k =
      Except.error (TradingEngine.ExecError.riskRejected
        RiskManager.Reason.positionSizeExceeded) := by
  refine ⟨?_, ?_, ?_, ?_⟩
  · simp [RiskManager.checkPositionSize, RiskManager.defaultRiskSettings, hep, hq, htv,
      JNum.jdiv_num_of_ne_zero _ _ htv0]
    by_cases h : 5 < ep * q / tv * 100
    · simp [h]
    · simp [h]
  · intro h
    simp [RiskManager.checkPositionSize, RiskManager.defaultRiskSettings, hep, hq, htv,
      JNum.jdiv_num_of_ne_zero _ _ htv0, h]
  · simp [RiskManager.validateTrade, RiskManager.checkPositionSize,
      RiskManager.checkTotalRiskExposure, RiskManager.checkDailyLoss,
      RiskManager.checkDrawdown, RiskManager.checkCorrelation,
      RiskManager.calculateRiskScore, RiskManager.calculateTradeRisk,
      RiskManager.defaultRiskSettings, sizeTrade, portfolio100k,
      JNum.jmul, JNum.jdiv, JNum.jadd, JNum.jsub, JNum.jneg, JNum.jabs, JNum.jmax,
      JNum.jlt, JNum.jle, JNum.jgt, JNum.jge, JNum.jeq, List.filter]
    norm_num
  · simp [TradingEngine.executeTrade, Storage.getPortfolio, Storage.getActiveTrades,
      stateWith100k, List.find?, List.filter,
      RiskManager.validateTrade, RiskManager.checkPositionSize,
      RiskManager.checkTotalRiskExposure, RiskManager.checkDailyLoss,
      RiskManager.checkDrawdown, RiskManager.checkCorrelation,
      RiskManager.calculateRiskScore, RiskManager.calculateTradeRisk,
      RiskManager.defaultRiskSettings, sizeTrade, portfolio100k,
      JNum.jmul, JNum.jdiv, JNum.jadd, JNum.jsub, JNum.jneg, JNum.jabs, JNum.jmax,
      JNum.jlt, JNum.jle, JNum.jgt, JNum.jge, JNum.jeq]
    norm_num

/-- Claim C7, witness: the general characterization applied to the
concrete 6 percent fixture yields the rejection with risk score 12. -/
theorem claim_C7_witness :
    RiskManager.validateTrade RiskManager.defaultRiskSettings sizeTrade
        (some portfolio100k) [] =
      { allowed := false, reason := RiskManager.Reason.positionSizeExceeded,
        riskScore := num 12 } :=
  (claim_C7_position_size_check sizeTrade portfolio100k 100 60 100000
    rfl rfl rfl (by norm_num)).2.2.1

/-- Claim C8: the monitor evaluates the stop-loss guard before the
take-profit guard, so a BUY position whose price is at once at or below
its stop and at or above its target closes for Stop Loss (likewise a SELL
at or above its stop); a position with no stop can never close for Stop
Loss, one with no target never for Take Profit, and a missing stop leaves
the take-profit check in force. -/
theorem claim_C8_stop_checked_before_target :
    (∀ (t : Trade) (cp sl tp : JNum), t.type = TradeType.BUY →
        t.stopLoss = some sl → t.takeProfit = some tp →
        jle cp sl = true → jge cp tp = true →
        TradingEngine.checkTradeExitConditions t cp =
          some TradingEngine.ExitReason.stopLossHit) ∧
    (∀ (t : Trade) (cp sl : JNum), t.type = TradeType.SELL →
        t.stopLoss = some sl → jge cp sl = true →
        TradingEngine.checkTradeExitConditions t cp =
          some TradingEngine.ExitReason.stopLossHit) ∧
    (∀ (t : Trade) (cp : JNum), t.stopLoss = none →
        TradingEngine.checkTradeExitConditions t cp ≠
          some TradingEngine.ExitReason.stopLossHit) ∧
    (∀ (t : Trade) (cp : JNum), t.takeProfit = none →
        TradingEngine.checkTradeExitConditions t cp ≠
          some TradingEngine.ExitReason.takeProfitHit) ∧
    (∀ (t : Trade) (cp tp : JNum), t.stopLoss = none → t.takeProfit = some tp →
        t.type = TradeType.BUY → jge cp tp = true →
        TradingEngine.checkTradeExitConditions t cp =
          some TradingEngine.ExitReason.takeProfitHit) := by
  refine ⟨?_, ?_, ?_, ?_, ?_⟩
  · intro t cp sl tp hty hsl htp hle hge
    simp [TradingEngine.checkTradeExitConditions, hty, hsl, htp, hle, hge]
  · intro t cp sl hty hsl hge
    simp [TradingEngine.checkTradeExitConditions, hty, hsl, hge]
  · intro t cp hsl
    simp only [TradingEngine.checkTradeExitConditions, hsl]
    split_ifs <;> simp_all
  · intro t cp htp
    simp only [TradingEngine.checkTradeExitConditions, htp]
    split_ifs <;> simp_all
  · intro t cp tp hsl htp hty hge
    simp [TradingEngine.checkTradeExitConditions, hsl, htp, hty, hge]

/-- Claim C8, witness: the contradictory BUY fixture (price 95, stop 96,
target 94) closes for Stop Loss. -/
theorem claim_C8_witness :
    TradingEngine.checkTradeExitConditions contradictoryBuyTrade (num 95) =
      some TradingEngine.ExitReason.stopLossHit :=
  claim_C8_stop_checked_before_target.1 contradictoryBuyTrade (num 95) (num 96) (num 94)
    rfl rfl rfl (by norm_num [JNum.jle]) (by norm_num [JNum.jge, JNum.jle])

/-- Claim C9: against the claimed shared disconnection rule, the venue
close operation never consults venue health: it succeeds for every
connection state, while the execute operation routed to the same
disconnected venue (MetaTrader, selected for the bare ticker AAPL) fails
with the not-connected error. -/
theorem claim_C9_close_ignores_venue_health :
    (∀ (conns : BrokerAPI.Connections) (tradeId : ℕ) (closePrice : JNum),
        BrokerAPI.closeTrade conns tradeId closePrice = Except.ok ()) ∧
    BrokerAPI.selectBroker connsMetaDown "AAPL" =
      { name := "MetaTrader", connected := false, latency := 0 } ∧
    BrokerAPI.executeTrade connsMetaDown aaplRequest 0 =
      Except.error (BrokerAPI.BrokerError.notConnected "MetaTrader") ∧
    BrokerAPI.closeTrade connsMetaDown 1 (num 185) = Except.ok () := by
  refine ⟨fun _ _ _ => rfl, by decide, by decide, rfl⟩

/-- Claim C10: for every nonempty list of sub-strategy outputs, the
combined ensemble signal inherits entry price, stop and target from the
first sub-strategy output, regardless of directions, confidences and
weights of the rest. -/
theorem claim_C10_levels_inherited_from_first (s0 : AIModels.PartialSignal)
    (rest : List AIModels.PartialSignal) :
    (AIModels.combineSignals (s0 :: rest)).map (fun out => out.entryPrice) =
        some s0.entryPrice ∧
    (AIModels.combineSignals (s0 :: rest)).map (fun out => out.stopLoss) =
        some s0.stopLoss ∧
    (AIModels.combineSignals (s0 :: rest)).map (fun out => out.takeProfit) =
        some s0.takeProfit := by
  refine ⟨rfl, rfl, rfl⟩

end CompleteBotV
